import Mathlib

/-!
Shallow embedding of `src/components/main_button.rs` (the `MainButton`
UI component: widget builder, hover event translator, animation stepper),
together with proofs of the behavioural properties stated in the
specification of the component.

Floating-point scalars (`f32` in the source) are modelled as rationals:
the numeric-semantics section of the specification states that the
direction/rate multiplication is exact and that clamping is a min/max, so
the properties proved below are representation-independent and hold of
the exact field. Entities are modelled as natural-number identifiers.
-/

namespace MainButtonSpec

/-- Entity identifier (Bevy `Entity`). -/
abbrev Entity := Nat

/-- RGBA color. Bevy `Color` is modelled by its four channels. -/
structure Color where
  red : ℚ
  green : ℚ
  blue : ℚ
  alpha : ℚ
deriving DecidableEq, Repr

/-- Bevy `Color::with_a`: the same color with a replaced alpha channel. -/
def Color.with_a (c : Color) (a : ℚ) : Color :=
  { c with alpha := a }

/-- Modelled from the spec: the fixed "rest" color
`Color::BEVYPUNK_RED` of the `BevypunkColorPalette` trait, which lives in
this repository outside `src/`. The spec fixes only that it is a constant
idle color; the channel values here are representative. -/
def BEVYPUNK_RED : Color :=
  ⟨1, 98 / 255, 81 / 255, 1⟩

/-- Modelled from the spec: the fixed "active" endpoint color
`Color::BEVYPUNK_YELLOW.with_l(0.68)`. `BEVYPUNK_YELLOW` comes from the
`BevypunkColorPalette` trait outside `src/` and the lightness adjustment
is performed by the external color library, so the whole expression is
embedded as one fixed constant with representative channel values. -/
def BEVYPUNK_YELLOW_L068 : Color :=
  ⟨252 / 255, 226 / 255, 8 / 255, 1⟩

/-- Modelled from the spec: `LerpColor::lerp` (defined in this repository
outside `src/`): "Derive a color by linearly interpolating between a fixed
rest color and a fixed active color using `t`" — channelwise linear
interpolation. -/
def lerpColor (a b : Color) (t : ℚ) : Color :=
  ⟨a.red + (b.red - a.red) * t,
   a.green + (b.green - a.green) * t,
   a.blue + (b.blue - a.blue) * t,
   a.alpha + (b.alpha - a.alpha) * t⟩

/-- A relative-length unit (`Rl` in the layout DSL). -/
structure Rl where
  val : ℚ
deriving DecidableEq, Repr

/-- Layout descriptor: `UiLayout::window_full()` optionally shifted on the
x axis by a relative offset (`.x(Rl v)`), then packed. Only the data the
source constructs is represented. -/
structure UiLayout where
  x_offset : Rl
deriving DecidableEq, Repr

/-- Source expression `UiLayout::window_full().pack()`: full-window
layout, no offset. -/
def window_full : UiLayout :=
  ⟨⟨0⟩⟩

/-- Source method `.x(Rl v)` on a layout descriptor. -/
def UiLayout.x (l : UiLayout) (v : Rl) : UiLayout :=
  { l with x_offset := v }

/-- State component `MainButtonControl` attached to the `Control` node
(the `ButtonState` of the specification). -/
structure MainButtonControl where
  animation_direction : ℚ
  animation_transition : ℚ
  image_entity : Entity
  text_entity : Entity
deriving DecidableEq, Repr

/-- A `SetColor` instruction event. -/
structure SetColor where
  target : Entity
  color : Color
deriving DecidableEq, Repr

/-- A `SetUiLayout` instruction event. -/
structure SetUiLayout where
  target : Entity
  layout : UiLayout
deriving DecidableEq, Repr

/-- Cursor icon enumeration; only the variant the source uses. -/
inductive CursorIcon where
  | Copy
deriving DecidableEq, Repr

/-- A cursor-override request
(`Cursor2d::request_cursor(icon, priority)`). -/
structure CursorRequest where
  icon : CursorIcon
  priority : ℚ
deriving DecidableEq, Repr

/-- Rust `f32::clamp(lo, hi)`: `lo` if below, `hi` if above, else the
value itself. -/
def clampQ (lo hi x : ℚ) : ℚ :=
  min hi (max lo x)

/-- Result of one `update_system` pass over a single control. -/
structure StepResult where
  state : MainButtonControl
  colors : List SetColor
  layouts : List SetUiLayout
  requests : List CursorRequest
deriving DecidableEq, Repr

/-- Body of `update_system` for one `MainButtonControl`
(src/components/main_button.rs lines 146-181): integrate the transition,
clamp it to `[0, 1]`, emit the two color instructions and the layout
instruction only when the value changed, and request the cursor while
`animation_direction == 1.0`. The abort behaviour of the
`cursor.single_mut()` call is modelled separately in `update_system`. -/
def update_control (dt : ℚ) (control : MainButtonControl) : StepResult :=
  let previous := control.animation_transition
  let moved := control.animation_transition + dt * 10 * control.animation_direction
  let clamped := clampQ 0 1 moved
  let control1 := { control with animation_transition := clamped }
  let emitted :=
    if previous = clamped then
      (([] : List SetColor), ([] : List SetUiLayout))
    else
      let color := lerpColor BEVYPUNK_RED BEVYPUNK_YELLOW_L068 clamped
      ([⟨control.image_entity, color.with_a clamped⟩,
        ⟨control.text_entity, color⟩],
       [⟨control.image_entity, window_full.x ⟨10 * clamped⟩⟩])
  let requests :=
    if control.animation_direction = 1 then
      [(⟨CursorIcon.Copy, 1⟩ : CursorRequest)]
    else []
  ⟨control1, emitted.1, emitted.2, requests⟩

/-- Whole `update_system` pass: every control is stepped in turn and the
emitted instructions are concatenated. `numCursors` is the number of
`Cursor2d` entities matched by the cursor query; `cursor.single_mut()`
aborts the tick (modelled as `none`) when a control with
`animation_direction == 1.0` is reached while that count is not one. -/
def update_system (dt : ℚ) (numCursors : Nat) :
    List MainButtonControl →
    Option (List MainButtonControl × List SetColor × List SetUiLayout × List CursorRequest)
  | [] => some ([], [], [], [])
  | control :: rest =>
    let r := update_control dt control
    if control.animation_direction = 1 ∧ numCursors ≠ 1 then
      none
    else
      match update_system dt numCursors rest with
      | none => none
      | some (states, colors, layouts, requests) =>
        some (r.state :: states, r.colors ++ colors,
              r.layouts ++ layouts, r.requests ++ requests)

/-- World seen by the pointer systems: the entities carrying a
`MainButtonControl` (with `UiLink<MainButtonUi>`), as an association list
from entity to control. -/
abbrev World := List (Entity × MainButtonControl)

/-- Semantics of `query.get_mut(target)` followed by a write of
`animation_direction`: the entry for `target`, if present, gets its
direction replaced; every other entry is untouched. A miss (no such
entry) changes nothing. -/
def set_direction (w : World) (target : Entity) (d : ℚ) : World :=
  w.map fun p => if p.1 = target then (p.1, { p.2 with animation_direction := d }) else p

/-- System `pointer_enter_system`: drains the `Pointer<Over>` event queue
in order, setting `animation_direction = 1.0` on the target of each event
when that target carries a `MainButtonControl`. Each event is modelled by
its target. -/
def pointer_enter_system (events : List Entity) (w : World) : World :=
  events.foldl (fun w e => set_direction w e 1) w

/-- System `pointer_leave_system`: drains the `Pointer<Out>` event queue
in order, setting `animation_direction = -1.0` on the target of each
event when that target carries a `MainButtonControl`. -/
def pointer_leave_system (events : List Entity) (w : World) : World :=
  events.foldl (fun w e => set_direction w e (-1)) w

/-- An asset handle (Bevy `Handle<_>`), identified by a number. -/
abbrev Handle := Nat

/-- Modelled from the spec: the `AssetCache` resource (defined in this
repository outside `src/`), "an asset provider exposing a background
texture handle and two font handles"; only the two fields read by
`build_system` are represented. -/
structure AssetCache where
  button : Handle
  font_medium : Handle
deriving DecidableEq, Repr

/-- How an entity participates in hit-testing:
`PickableBundle::default()` (hit-testable), `Pickable::IGNORE`, or no
picking component at all. -/
inductive Picking where
  | bundle
  | ignore
  | absent
deriving DecidableEq, Repr

/-- One child node spawned by `build_system`, with the data the source
attaches to it. -/
structure SpawnedNode where
  id : Entity
  link_path : String
  picking : Picking
  sprite_color : Option Color
  text : Option (String × Color)
  control : Option MainButtonControl
deriving DecidableEq, Repr

/-- A node is hit-testable exactly when it carries `PickableBundle`. -/
def SpawnedNode.hit_testable (n : SpawnedNode) : Bool :=
  n.picking = Picking.bundle

/-- Body of `build_system` for one newly added `MainButton`
(src/components/main_button.rs lines 38-112): spawn the image node at
`Control/Image` (sprite `BEVYPUNK_RED.with_a(0.0)`, `Pickable::IGNORE`),
the text node at `Control/Image/Text` (label text in `BEVYPUNK_RED`, no
picking component), and the control node at `Control` (sprite
`BEVYPUNK_RED.with_a(0.0)`, `PickableBundle`, and the `MainButtonControl`
holding the two fresh ids). `fresh` is the first unused entity id. -/
def build_button (source_text : String) (fresh : Entity) : List SpawnedNode :=
  let image := fresh
  let text := fresh + 1
  [⟨image, "Control/Image", Picking.ignore,
    some (BEVYPUNK_RED.with_a 0), none, none⟩,
   ⟨text, "Control/Image/Text", Picking.absent,
    none, some (source_text, BEVYPUNK_RED), none⟩,
   ⟨fresh + 2, "Control", Picking.bundle,
    some (BEVYPUNK_RED.with_a 0), none,
    some ⟨0, 0, image, text⟩⟩]

/-- A builder failure. -/
inductive BuildFailure where
  | missingAsset
deriving DecidableEq, Repr

/-- Builder entry point for one button entity. Modelled from the spec for
the asset-availability part: the `AssetCache` resource is provisioned
outside `src/`, and per the spec a missing required asset is a fatal
missing-asset error that aborts construction for the button with nothing
spawned (in Bevy, `Res<AssetCache>` aborts the system when the resource
is absent, before any node is spawned); `none` models the unavailable
provider. On success the three child nodes of `build_button` are
spawned. -/
def build_system (assets : Option AssetCache) (source_text : String) (fresh : Entity) :
    Except BuildFailure (List SpawnedNode) :=
  match assets with
  | none => Except.error BuildFailure.missingAsset
  | some _ => Except.ok (build_button source_text fresh)

/-- Experiment for the clamping invariant: on each tick the hover
translator sets an arbitrary direction, then the stepper runs with an
arbitrary elapsed time; `run_sequence` returns the state after each
stepper run. -/
def run_sequence (c : MainButtonControl) : List (ℚ × ℚ) → List MainButtonControl
  | [] => []
  | (dir, dt) :: rest =>
    let c1 := (update_control dt { c with animation_direction := dir }).state
    c1 :: run_sequence c1 rest

/-- Repeated stepper ticks with a fixed elapsed time and no intervening
direction change (the monotone-convergence experiment). -/
def iterate_ticks (dt : ℚ) (c : MainButtonControl) : Nat → MainButtonControl
  | 0 => c
  | n + 1 => (update_control dt (iterate_ticks dt c n)).state

/-- Unfolding lemma: the state produced by one stepper pass is the old
control with the transition integrated and clamped; every other field is
unchanged. -/
lemma update_control_state (dt : ℚ) (c : MainButtonControl) :
    (update_control dt c).state =
      { c with animation_transition :=
          clampQ 0 1 (c.animation_transition + dt * 10 * c.animation_direction) } := rfl

/-- Clamping puts the transition of the updated state into `[0, 1]`,
whatever the inputs were. -/
lemma update_control_transition_mem (dt : ℚ) (c : MainButtonControl) :
    0 ≤ (update_control dt c).state.animation_transition ∧
    (update_control dt c).state.animation_transition ≤ 1 :=
  ⟨le_min (by norm_num) (le_max_left 0 _), min_le_left 1 _⟩

/-- C1: for every `MainButtonControl` and every sequence of stepper ticks
with arbitrary elapsed times and directions, `animation_transition` lies
in `[0, 1]` after each stepper run (the update adds
`elapsed_time * 10.0 * direction` and then clamps to `[0, 1]`). -/
theorem clamping_invariant (c : MainButtonControl) (steps : List (ℚ × ℚ))
    (s : MainButtonControl) (hs : s ∈ run_sequence c steps) :
    0 ≤ s.animation_transition ∧ s.animation_transition ≤ 1 := by
  induction steps generalizing c with
  | nil => simp [run_sequence] at hs
  | cons p rest ih =>
    obtain ⟨dir, dt⟩ := p
    simp only [run_sequence, List.mem_cons] at hs
    rcases hs with h | h
    · subst h
      exact update_control_transition_mem _ _
    · exact ih _ h

/-- Witness for C1 at a concrete run: one forward tick of `0.05 s` from
the rest state lands on transition `1/2`, inside `[0, 1]`. -/
theorem clamping_invariant_witness :
    ((⟨1, 1/2, 7, 8⟩ : MainButtonControl) ∈
        run_sequence ⟨0, 0, 7, 8⟩ [(1, 1/20)]) ∧
    (0 ≤ (⟨1, 1/2, 7, 8⟩ : MainButtonControl).animation_transition ∧
      (⟨1, 1/2, 7, 8⟩ : MainButtonControl).animation_transition ≤ 1) :=
  ⟨by norm_num [run_sequence, update_control, clampQ],
   clamping_invariant ⟨0, 0, 7, 8⟩ [(1, 1/20)] _
     (by norm_num [run_sequence, update_control, clampQ])⟩

/-- C2: from transition `0.0` and direction `1.0`, one stepper tick with
elapsed time `0.05 s` (rate `10.0`) sets the transition to `0.5` and
emits exactly one layout instruction to the image node with horizontal
offset `Rl(5.0)` (that is `10.0 *` transition) and exactly two color
instructions (image and text) using the color interpolated at `t = 0.5`,
the image color carrying alpha `0.5`. -/
theorem scenario_b (img txt : Entity) :
    (update_control (1/20) ⟨1, 0, img, txt⟩).state.animation_transition = 1/2 ∧
    (update_control (1/20) ⟨1, 0, img, txt⟩).layouts =
      [⟨img, window_full.x ⟨10 * (1/2)⟩⟩] ∧
    window_full.x ⟨10 * (1/2)⟩ = window_full.x ⟨5⟩ ∧
    (update_control (1/20) ⟨1, 0, img, txt⟩).colors =
      [⟨img, (lerpColor BEVYPUNK_RED BEVYPUNK_YELLOW_L068 (1/2)).with_a (1/2)⟩,
       ⟨txt, lerpColor BEVYPUNK_RED BEVYPUNK_YELLOW_L068 (1/2)⟩] ∧
    ((lerpColor BEVYPUNK_RED BEVYPUNK_YELLOW_L068 (1/2)).with_a (1/2)).alpha = 1/2 := by
  norm_num [update_control, clampQ, Color.with_a, window_full, UiLayout.x]

/-- C3: whenever the clamped update leaves `animation_transition`
unchanged — in particular at `0.0` with direction `-1.0`, at `1.0` with
direction `1.0`, or with direction `0.0` — the tick emits zero color
instructions and zero layout instructions. -/
theorem no_emission_when_unchanged (dt : ℚ) (c : MainButtonControl)
    (h : clampQ 0 1 (c.animation_transition + dt * 10 * c.animation_direction) =
      c.animation_transition) :
    (update_control dt c).colors = [] ∧ (update_control dt c).layouts = [] := by
  simp [update_control, h]

/-- Witness for C3: a backward tick at rest transition `0.0` clamps back
to `0.0` and emits nothing. -/
theorem no_emission_witness :
    clampQ 0 1 ((0 : ℚ) + 1/20 * 10 * (-1)) = (0 : ℚ) ∧
    ((update_control (1/20) ⟨-1, 0, 7, 8⟩).colors = [] ∧
      (update_control (1/20) ⟨-1, 0, 7, 8⟩).layouts = []) :=
  ⟨by norm_num [clampQ],
   no_emission_when_unchanged (1/20) ⟨-1, 0, 7, 8⟩ (by norm_num [clampQ])⟩

/-- Closed form of the forward iteration: holding direction `1.0`, after
`k` ticks of a fixed step `dt > 0` the transition is
`min (t0 + dt * 10 * k) 1`, and the direction is still `1.0`. -/
lemma iterate_ticks_closed_form (dt : ℚ) (c : MainButtonControl) (hdt : 0 < dt)
    (hdir : c.animation_direction = 1) (h0 : 0 ≤ c.animation_transition)
    (h1 : c.animation_transition ≤ 1) (k : ℕ) :
    (iterate_ticks dt c k).animation_direction = 1 ∧
    (iterate_ticks dt c k).animation_transition =
      min (c.animation_transition + dt * 10 * k) 1 := by
  induction k with
  | zero =>
    refine ⟨hdir, ?_⟩
    simp [iterate_ticks, min_eq_left, h1]
  | succ k ih =>
    obtain ⟨ihdir, iht⟩ := ih
    constructor
    · rw [iterate_ticks, update_control_state]
      exact ihdir
    · rw [iterate_ticks, update_control_state]
      simp only [iht, ihdir, clampQ]
      have hx : 0 ≤ c.animation_transition + dt * 10 * k := by positivity
      have hmax : 0 ≤ min (c.animation_transition + dt * 10 * k) 1 + dt * 10 * 1 := by
        have : (0:ℚ) ≤ min (c.animation_transition + dt * 10 * k) 1 :=
          le_min hx (by norm_num)
        nlinarith
      rw [max_eq_right hmax]
      push_cast
      rcases le_total (c.animation_transition + dt * 10 * k) 1 with hle | hle
      · rw [min_eq_left hle, min_comm]
        ring_nf
      · rw [min_eq_right hle]
        rw [min_eq_left (by nlinarith), min_eq_right (by nlinarith)]

/-- C4: holding direction `1.0` and running the stepper repeatedly with a
fixed positive elapsed time per tick, the transition strictly increases
on every tick while it is below `1.0`, stays exactly `1.0` on every tick
after reaching it, and does reach `1.0` after finitely many ticks. -/
theorem monotonic_convergence (dt : ℚ) (c : MainButtonControl)
    (hdt : 0 < dt) (hdir : c.animation_direction = 1)
    (h0 : 0 ≤ c.animation_transition) (h1 : c.animation_transition ≤ 1) :
    (∀ k : ℕ, (iterate_ticks dt c k).animation_transition < 1 →
        (iterate_ticks dt c k).animation_transition
          < (iterate_ticks dt c (k + 1)).animation_transition) ∧
    (∀ k : ℕ, (iterate_ticks dt c k).animation_transition = 1 →
        (iterate_ticks dt c (k + 1)).animation_transition = 1) ∧
    ∃ N : ℕ, ∀ k : ℕ, N ≤ k → (iterate_ticks dt c k).animation_transition = 1 := by
  have cf := iterate_ticks_closed_form dt c hdt hdir h0 h1
  refine ⟨?_, ?_, ?_⟩
  · intro k hk
    rw [(cf k).2, (cf (k + 1)).2] at *
    have hlt : c.animation_transition + dt * 10 * k < 1 := by
      by_contra hge
      push_neg at hge
      rw [min_eq_right hge] at hk
      exact absurd hk (lt_irrefl 1)
    rw [min_eq_left hlt.le]
    push_cast
    refine lt_min (by nlinarith) hlt
  · intro k hk
    rw [(cf k).2] at hk
    rw [(cf (k + 1)).2]
    have hge : 1 ≤ c.animation_transition + dt * 10 * k := by
      by_contra hlt
      push_neg at hlt
      rw [min_eq_left hlt.le] at hk
      exact absurd hk hlt.ne
    refine min_eq_right ?_
    push_cast
    nlinarith
  · refine ⟨⌈(1 - c.animation_transition) / (dt * 10)⌉₊, fun k hk => ?_⟩
    rw [(cf k).2]
    refine min_eq_right ?_
    have hpos : (0:ℚ) < dt * 10 := by nlinarith
    have hceil : (1 - c.animation_transition) / (dt * 10) ≤ (k : ℚ) := by
      calc (1 - c.animation_transition) / (dt * 10)
          ≤ (⌈(1 - c.animation_transition) / (dt * 10)⌉₊ : ℚ) := Nat.le_ceil _
        _ ≤ (k : ℚ) := by exact_mod_cast Nat.cast_le.mpr hk
    rw [div_le_iff₀ hpos] at hceil
    nlinarith

/-- Witness for C4 at step `0.05 s` from the rest state. -/
theorem monotonic_convergence_witness :
    (0 : ℚ) < 1/20 ∧
    (⟨1, 0, 7, 8⟩ : MainButtonControl).animation_direction = 1 ∧
    (0 : ℚ) ≤ (⟨1, 0, 7, 8⟩ : MainButtonControl).animation_transition ∧
    (⟨1, 0, 7, 8⟩ : MainButtonControl).animation_transition ≤ 1 ∧
    ((∀ k : ℕ, (iterate_ticks (1/20) ⟨1, 0, 7, 8⟩ k).animation_transition < 1 →
        (iterate_ticks (1/20) ⟨1, 0, 7, 8⟩ k).animation_transition
          < (iterate_ticks (1/20) ⟨1, 0, 7, 8⟩ (k + 1)).animation_transition) ∧
     (∀ k : ℕ, (iterate_ticks (1/20) ⟨1, 0, 7, 8⟩ k).animation_transition = 1 →
        (iterate_ticks (1/20) ⟨1, 0, 7, 8⟩ (k + 1)).animation_transition = 1) ∧
     ∃ N : ℕ, ∀ k : ℕ, N ≤ k →
        (iterate_ticks (1/20) ⟨1, 0, 7, 8⟩ k).animation_transition = 1) :=
  ⟨by norm_num, rfl, le_refl 0, by norm_num,
   monotonic_convergence (1/20) ⟨1, 0, 7, 8⟩ (by norm_num) rfl (le_refl 0) (by norm_num)⟩

/-- Writing the same direction twice through `set_direction` is the same
as writing it once. -/
lemma set_direction_idem (w : World) (t : Entity) (d : ℚ) :
    set_direction (set_direction w t d) t d = set_direction w t d := by
  induction w with
  | nil => rfl
  | cons p rest ih =>
    by_cases hp : p.1 = t <;>
      simp only [set_direction, List.map_cons] at ih ⊢ <;>
      simp [hp, ih]

/-- C5: processing a pointer-enter event sets `animation_direction` of
the target control to exactly `1.0` regardless of its prior value, a
pointer-leave sets it to exactly `-1.0` regardless of its prior value,
and two consecutive pointer-enter events yield the same state as one
(set, never accumulated — no double-speed effect). -/
theorem direction_set_not_accumulated (w : World) (e : Entity) :
    (∀ p ∈ pointer_enter_system [e] w, p.1 = e → p.2.animation_direction = 1) ∧
    (∀ p ∈ pointer_leave_system [e] w, p.1 = e → p.2.animation_direction = -1) ∧
    pointer_enter_system [e, e] w = pointer_enter_system [e] w := by
  refine ⟨?_, ?_, ?_⟩
  · intro p hp hpe
    simp only [pointer_enter_system, List.foldl, set_direction, List.mem_map] at hp
    obtain ⟨q, hq, rfl⟩ := hp
    by_cases hq1 : q.1 = e
    · simp [hq1]
    · simp only [if_neg hq1] at hpe ⊢
      exact absurd hpe hq1
  · intro p hp hpe
    simp only [pointer_leave_system, List.foldl, set_direction, List.mem_map] at hp
    obtain ⟨q, hq, rfl⟩ := hp
    by_cases hq1 : q.1 = e
    · simp [hq1]
    · simp only [if_neg hq1] at hpe ⊢
      exact absurd hpe hq1
  · simp only [pointer_enter_system, List.foldl]
    exact set_direction_idem w e 1

/-- Witness for C5: an enter event re-targets a control that was moving
backwards and leaves it with direction `1.0`. -/
theorem direction_set_witness :
    ((5, ⟨1, 1/2, 7, 8⟩) ∈
        pointer_enter_system [5] [(5, (⟨-1, 1/2, 7, 8⟩ : MainButtonControl))] ∧
      (5 : Entity) = 5 ∧
      (⟨1, 1/2, 7, 8⟩ : MainButtonControl).animation_direction = 1) :=
  ⟨by norm_num [pointer_enter_system, set_direction], rfl,
   (direction_set_not_accumulated [(5, ⟨-1, 1/2, 7, 8⟩)] 5).1 (5, ⟨1, 1/2, 7, 8⟩)
     (by norm_num [pointer_enter_system, set_direction]) rfl⟩

/-- Updating the direction of an entity that owns no entry leaves the
world unchanged. -/
lemma set_direction_of_no_match (w : World) (e : Entity) (d : ℚ)
    (h : ∀ p ∈ w, p.1 ≠ e) : set_direction w e d = w := by
  induction w with
  | nil => rfl
  | cons p rest ih =>
    simp only [set_direction, List.map_cons, if_neg (h p (List.mem_cons_self p rest))]
    rw [show List.map _ rest = set_direction rest e d from rfl,
      ih fun q hq => h q (List.mem_cons_of_mem p hq)]

/-- C6: a pointer-enter or pointer-leave event whose target carries no
`MainButtonControl` leaves all state unchanged and raises no error (the
event is silently dropped). -/
theorem unknown_target_ignored (w : World) (e : Entity)
    (h : ∀ p ∈ w, p.1 ≠ e) :
    pointer_enter_system [e] w = w ∧ pointer_leave_system [e] w = w :=
  ⟨set_direction_of_no_match w e 1 h, set_direction_of_no_match w e (-1) h⟩

/-- Witness for C6: an event addressed at entity `5` passes over a world
holding only entity `1`. -/
theorem unknown_target_witness :
    (∀ p ∈ [((1 : Entity), (⟨0, 0, 7, 8⟩ : MainButtonControl))], p.1 ≠ (5 : Entity)) ∧
    (pointer_enter_system [5] [(1, ⟨0, 0, 7, 8⟩)] = [(1, ⟨0, 0, 7, 8⟩)] ∧
      pointer_leave_system [5] [(1, ⟨0, 0, 7, 8⟩)] = [(1, ⟨0, 0, 7, 8⟩)]) :=
  ⟨by simp, unknown_target_ignored [(1, ⟨0, 0, 7, 8⟩)] 5 (by simp)⟩

/-- C7: on every stepper tick, a cursor-override request (the `Copy`
icon, priority `1.0`) is issued for a control exactly when its
`animation_direction` equals `1.0`; no request is issued while the
direction is anything else even when the transition is positive, and
because the stepper never changes the direction the request is re-issued
on every following tick while the direction stays `1.0`. -/
theorem cursor_request_iff_forward (dt : ℚ) (c : MainButtonControl) :
    ((update_control dt c).requests = [⟨CursorIcon.Copy, 1⟩] ↔
      c.animation_direction = 1) ∧
    ((update_control dt c).requests = [] ↔ c.animation_direction ≠ 1) ∧
    (update_control dt c).state.animation_direction = c.animation_direction := by
  by_cases h : c.animation_direction = 1 <;> simp [update_control, h]

/-- C8: the builder creates exactly three child nodes at the fixed
relative paths `Control/Image`, `Control/Image/Text` and `Control`; both
background image nodes start fully transparent (alpha `0`) in the idle
color; the control node is the only hit-testable node; and the
`MainButtonControl` attached to `Control` references exactly the image
and text nodes created in that same invocation. -/
theorem build_composition (source_text : String) (fresh : Entity) :
    ∃ img txt ctl : SpawnedNode,
      build_button source_text fresh = [img, txt, ctl] ∧
      img.link_path = "Control/Image" ∧
      txt.link_path = "Control/Image/Text" ∧
      ctl.link_path = "Control" ∧
      ctl.hit_testable = true ∧
      img.hit_testable = false ∧
      txt.hit_testable = false ∧
      img.sprite_color = some (BEVYPUNK_RED.with_a 0) ∧
      ctl.sprite_color = some (BEVYPUNK_RED.with_a 0) ∧
      (BEVYPUNK_RED.with_a 0).alpha = 0 ∧
      txt.text = some (source_text, BEVYPUNK_RED) ∧
      ctl.control = some ⟨0, 0, img.id, txt.id⟩ := by
  refine ⟨_, _, _, rfl, rfl, rfl, rfl, rfl, rfl, rfl, rfl, rfl, rfl, rfl, rfl⟩

/-- C9: with the asset provider unavailable the builder fails with a
missing-asset error and spawns nothing, leaving no partial composition
attached. -/
theorem missing_asset_fails (source_text : String) (fresh : Entity) :
    build_system none source_text fresh = Except.error BuildFailure.missingAsset := rfl

/-- C10: whenever some control has `animation_direction == 1.0` during a
stepper tick while the number of `Cursor2d` entities is not exactly one,
the `single_mut()` access aborts the tick (`none`) instead of skipping
the cursor request. -/
theorem cursor_panic (dt : ℚ) (numCursors : Nat) (w : List MainButtonControl)
    (h1 : ∃ c ∈ w, c.animation_direction = 1) (h2 : numCursors ≠ 1) :
    update_system dt numCursors w = none := by
  induction w with
  | nil => simp at h1
  | cons c rest ih =>
    obtain ⟨c', hc', hdir⟩ := h1
    rcases List.mem_cons.mp hc' with rfl | hmem
    · simp [update_system, hdir, h2]
    · rw [update_system, ih ⟨c', hmem, hdir⟩]
      split <;> rfl

/-- Witness for C10: one forward-moving control and zero cursor entities
abort the tick. -/
theorem cursor_panic_witness :
    (∃ c ∈ [(⟨1, 0, 7, 8⟩ : MainButtonControl)], c.animation_direction = 1) ∧
    (0 : Nat) ≠ 1 ∧
    update_system 1 0 [(⟨1, 0, 7, 8⟩ : MainButtonControl)] = none :=
  ⟨⟨⟨1, 0, 7, 8⟩, List.mem_singleton_self _, rfl⟩, by decide,
   cursor_panic 1 0 [⟨1, 0, 7, 8⟩] ⟨⟨1, 0, 7, 8⟩, List.mem_singleton_self _, rfl⟩
     (by decide)⟩

end MainButtonSpec
